import Mathlib

/-!
Shallow embedding of the client-side session/profile manager (the `useAuth`
hook in `src/hooks/useJobs.ts`) of the SevaConnect repository, together with
proofs of the testable properties claimed by its specification.

The remote data service (Supabase auth + `profiles` table) is modelled as
explicit response values passed to each operation:
* a session lookup responds with `Except StoreError (Option Session)`;
* the `profiles` single-row select responds, per attempt, with
  `Except StoreError Profile` (the function `Nat → Except StoreError Profile`
  gives the response of the n-th attempt, so retries can see different
  answers);
* a row update responds with `Except StoreError Profile`;
* a sign-out responds with `Option StoreError` (`none` = success).

React state (`useState` + `setState` behind the `isMountedRef` liveness
guard) is modelled by explicit state passing on `HookCtx`, and `setTimeout`
back-off delays are recorded in a trace rather than waited for.
-/

namespace SevaConnect

/-- Role of a profile row: exactly one of `worker` or `provider`. -/
inductive Role where
  | worker
  | provider
deriving DecidableEq, Repr

/-- The `Profile` row interface from `src/hooks/useJobs.ts` (useAuth). -/
structure Profile where
  id : String
  full_name : String
  mobile_number : String
  village : String
  role : Role
  profile_picture_url : Option String
  rating : Rat
  total_ratings : Nat
  created_at : String
  updated_at : String
deriving DecidableEq, Repr

/-- An authenticated user, as exposed by the remote auth subsystem.
Only its identifier is ever inspected by the hook. -/
structure User where
  id : String
deriving DecidableEq, Repr

/-- A session issued by the remote auth subsystem; `session.user` is the
authenticated principal. -/
structure Session where
  user : User
deriving DecidableEq, Repr

/-- An error value returned by the remote store (PostgREST / auth error:
a message plus an optional machine-readable code). -/
structure StoreError where
  message : String
  code : Option String
deriving DecidableEq, Repr

/-- The `AuthHookError` class: message plus optional remote code. -/
structure AuthHookError where
  message : String
  code : Option String
deriving DecidableEq, Repr

/-- Holds when the char list `p` is a prefix of `s`
(JS `String.prototype.startsWith` on exploded strings). -/
def startsWithChars : List Char → List Char → Bool
  | _, [] => true
  | [], _ :: _ => false
  | a :: s, b :: p => a == b && startsWithChars s p

/-- Holds when `p` occurs contiguously inside `s`. -/
def hasInfixChars : List Char → List Char → Bool
  | [], p => p.isEmpty
  | a :: s, p => startsWithChars (a :: s) p || hasInfixChars s p

/-- JS `s.includes(pat)` on our string model. -/
def strIncludes (s pat : String) : Bool :=
  hasInfixChars s.data pat.data

/-- The retry guard of `fetchProfile`:
`error.message.includes('network') || error.message.includes('timeout')
 || error.code === 'NETWORK_ERROR'`. -/
def isTransient (e : StoreError) : Bool :=
  strIncludes e.message "network" || strIncludes e.message "timeout" ||
    e.code == some "NETWORK_ERROR"

/-- The not-found test of `fetchProfile`: `error.code === 'PGRST116'`. -/
def isNotFound (e : StoreError) : Bool :=
  e.code == some "PGRST116"

/-- The `const maxRetries = 3` of `fetchProfile`. -/
def maxRetries : Nat := 3

/-- The `const retryDelay = 1000 * Math.pow(2, retryCount)` back-off (ms). -/
def retryDelay (retryCount : Nat) : Nat :=
  1000 * 2 ^ retryCount

/-- Observable outcome of one call to `fetchProfile`:
the returned value (`ok (some p)` = profile row, `ok none` = "no profile",
`error` = the thrown `AuthHookError`), the number of remote select attempts
made, and the list of back-off delays (ms) slept between attempts. -/
structure FetchTrace where
  result : Except AuthHookError (Option Profile)
  attempts : Nat
  delays : List Nat
deriving Repr

/-- Recursion core of `fetchProfile`.  `fuel` is the number of retries
still allowed, kept equal to `maxRetries - retryCount` by `fetchProfile`,
so `0 < fuel` is exactly the source's `retryCount < maxRetries` guard
(see `fetchProfile_eq`); carrying it separately makes the recursion
structural.  Not-found (`PGRST116`) returns `none`; transient errors
retry with exponential back-off; anything else throws
`Failed to fetch profile: <message>` carrying the remote code. -/
def fetchProfileGo (remote : Nat → Except StoreError Profile) :
    Nat → Nat → FetchTrace
  | fuel, retryCount =>
    match remote retryCount with
    | .ok data => ⟨.ok (some data), 1, []⟩
    | .error e =>
      if isNotFound e then
        ⟨.ok none, 1, []⟩
      else
        match fuel with
        | fuelLeft + 1 =>
          if isTransient e then
            let rest := fetchProfileGo remote fuelLeft (retryCount + 1)
            ⟨rest.result, rest.attempts + 1, retryDelay retryCount :: rest.delays⟩
          else
            ⟨.error ⟨"Failed to fetch profile: " ++ e.message, e.code⟩, 1, []⟩
        | 0 =>
          ⟨.error ⟨"Failed to fetch profile: " ++ e.message, e.code⟩, 1, []⟩

/-- Source `fetchProfile(userId, retryCount)` from `useAuth`, with the remote
modelled as the per-attempt response `remote n`. -/
def fetchProfile (remote : Nat → Except StoreError Profile)
    (retryCount : Nat) : FetchTrace :=
  fetchProfileGo remote (maxRetries - retryCount) retryCount

/-- Function `fetchProfile` satisfies the source's recurrence literally: success
returns the row; `PGRST116` returns "no profile"; a transient error with
`retryCount < maxRetries` backs off `retryDelay retryCount` and recurses at
`retryCount + 1`; otherwise the failure is thrown. -/
theorem fetchProfile_eq (remote : Nat → Except StoreError Profile)
    (retryCount : Nat) :
    fetchProfile remote retryCount =
      match remote retryCount with
      | .ok data => ⟨.ok (some data), 1, []⟩
      | .error e =>
        if isNotFound e then
          ⟨.ok none, 1, []⟩
        else if retryCount < maxRetries then
          if isTransient e then
            let rest := fetchProfile remote (retryCount + 1)
            ⟨rest.result, rest.attempts + 1, retryDelay retryCount :: rest.delays⟩
          else
            ⟨.error ⟨"Failed to fetch profile: " ++ e.message, e.code⟩, 1, []⟩
        else
          ⟨.error ⟨"Failed to fetch profile: " ++ e.message, e.code⟩, 1, []⟩ := by
  unfold fetchProfile
  rw [fetchProfileGo]
  cases remote retryCount with
  | ok data => rfl
  | error e =>
    simp only
    by_cases hnf : isNotFound e
    · simp [hnf]
    · by_cases hlt : retryCount < maxRetries
      · have h1 : maxRetries - retryCount = (maxRetries - (retryCount + 1)) + 1 := by
          omega
        simp [hnf, hlt, h1]
      · have h0 : maxRetries - retryCount = 0 := by omega
        simp [hnf, hlt, h0]

/-- The `AuthState` record held in `useState`. -/
structure AuthState where
  user : Option User
  profile : Option Profile
  loading : Bool
  error : Option String
  initialized : Bool
deriving DecidableEq, Repr

/-- A `Partial<AuthState>` argument to `updateState`: `some v` means the
field is present in the update object, `none` means absent. -/
structure AuthStateUpdates where
  user? : Option (Option User) := none
  profile? : Option (Option Profile) := none
  loading? : Option Bool := none
  error? : Option (Option String) := none
  initialized? : Option Bool := none

/-- The functional update `setState(prev => (\x7b ...prev, ...updates \x7d))`. -/
def applyUpdates (s : AuthState) (u : AuthStateUpdates) : AuthState :=
  { user := u.user?.getD s.user
    profile := u.profile?.getD s.profile
    loading := u.loading?.getD s.loading
    error := u.error?.getD s.error
    initialized := u.initialized?.getD s.initialized }

/-- The hook's context: the mounted flag (`isMountedRef.current`) plus the
externally observable `AuthState`. -/
structure HookCtx where
  mounted : Bool
  state : AuthState
deriving DecidableEq, Repr

/-- Guarded `updateState`: applies the partial update only when the component is
still mounted; a write after teardown is silently dropped. -/
def updateState (c : HookCtx) (u : AuthStateUpdates) : HookCtx :=
  if c.mounted then { c with state := applyUpdates c.state u } else c

/-- The initial hook context: mounted, with
`{ user: null, profile: null, loading: true, error: null, initialized: false }`. -/
def initCtx : HookCtx :=
  ⟨true, ⟨none, none, true, none, false⟩⟩

/-- Source `clearError` from `useAuth`: update `error` to null. -/
def clearError (c : HookCtx) : HookCtx :=
  updateState c { error? := some none }

/-- Source `getInitialSession` from `useAuth`.  `sessionRes` is the outcome of
`supabase.auth.getSession()` (`ok none` = no session), `remote` the
per-attempt response of the `profiles` select used by `fetchProfile`.
A session-lookup failure ends the catch branch; a profile-fetch failure
records the error but still adopts the session (`Onboarding`). -/
def getInitialSession (c : HookCtx)
    (sessionRes : Except StoreError (Option Session))
    (remote : Nat → Except StoreError Profile) : HookCtx :=
  let c1 := updateState c { loading? := some true, error? := some none }
  match sessionRes with
  | .error e =>
      updateState c1
        { error? := some (some ("Session retrieval failed: " ++ e.message))
          loading? := some false
          initialized? := some true
          user? := some none
          profile? := some none }
  | .ok none =>
      updateState c1
        { user? := some none
          profile? := some none
          loading? := some false
          initialized? := some true }
  | .ok (some sess) =>
      match (fetchProfile remote 0).result with
      | .ok p =>
          updateState c1
            { user? := some (some sess.user)
              profile? := some p
              loading? := some false
              initialized? := some true }
      | .error pe =>
          let c2 := updateState c1 { error? := some (some pe.message) }
          updateState c2
            { user? := some (some sess.user)
              profile? := some none
              loading? := some false
              initialized? := some true }

/-- The auth change events delivered by `supabase.auth.onAuthStateChange`.
`other` stands for any event kind not named in the switch
(e.g. `INITIAL_SESSION`, `PASSWORD_RECOVERY`). -/
inductive AuthChangeEvent where
  | signedIn
  | tokenRefreshed
  | signedOut
  | userUpdated
  | other (kind : String)
deriving DecidableEq, Repr

/-- Source `handleAuthStateChange(event, session)` from `useAuth`.
`SIGNED_IN`/`TOKEN_REFRESHED` fetch the profile, swallowing fetch errors;
`SIGNED_OUT` clears the profile; `USER_UPDATED` keeps the prior profile;
any other event fetches when a session user is present, and a fetch failure
there reaches the outer catch (error recorded, user/profile not adopted). -/
def handleAuthStateChange (c : HookCtx) (event : AuthChangeEvent)
    (session : Option Session)
    (remote : Nat → Except StoreError Profile) : HookCtx :=
  let c1 := updateState c { error? := some none }
  let user := session.map Session.user
  match event with
  | .signedIn | .tokenRefreshed =>
      let profileData : Option Profile :=
        match user with
        | some _ =>
            match (fetchProfile remote 0).result with
            | .ok p => p
            | .error _ => none
        | none => none
      updateState c1
        { user? := some user
          profile? := some profileData
          loading? := some false
          initialized? := some true }
  | .signedOut =>
      updateState c1
        { user? := some user
          profile? := some none
          loading? := some false
          initialized? := some true }
  | .userUpdated =>
      updateState c1
        { user? := some user
          profile? := some c.state.profile
          loading? := some false
          initialized? := some true }
  | .other _ =>
      match user with
      | some _ =>
          match (fetchProfile remote 0).result with
          | .ok p =>
              updateState c1
                { user? := some user
                  profile? := some p
                  loading? := some false
                  initialized? := some true }
          | .error e =>
              updateState c1
                { error? := some (some e.message)
                  loading? := some false
                  initialized? := some true }
      | none =>
          updateState c1
            { user? := some user
              profile? := some none
              loading? := some false
              initialized? := some true }

/-- Source `refreshProfile` from `useAuth`: throws `No user logged in` when no
user is present; otherwise re-runs `fetchProfile`, replacing `profile` on
success and recording + re-raising the failure otherwise. -/
def refreshProfile (c : HookCtx)
    (remote : Nat → Except StoreError Profile) :
    HookCtx × Except AuthHookError Unit :=
  match c.state.user with
  | none => (c, .error ⟨"No user logged in", none⟩)
  | some _ =>
      let c1 := updateState c { error? := some none }
      match (fetchProfile remote 0).result with
      | .ok p => (updateState c1 { profile? := some p }, .ok ())
      | .error e =>
          (updateState c1 { error? := some (some e.message) }, .error e)

/-- A `Partial<Profile>` argument to `updateProfile`: `some v` for a field
present in the update object, `none` for an absent one. -/
structure ProfileUpdates where
  id? : Option String := none
  full_name? : Option String := none
  mobile_number? : Option String := none
  village? : Option String := none
  role? : Option Role := none
  profile_picture_url? : Option (Option String) := none
  rating? : Option Rat := none
  total_ratings? : Option Nat := none
  created_at? : Option String := none
  updated_at? : Option String := none

/-- The spread `{ ...profile, ...updates }`. -/
def mergeProfile (p : Profile) (u : ProfileUpdates) : Profile :=
  { id := u.id?.getD p.id
    full_name := u.full_name?.getD p.full_name
    mobile_number := u.mobile_number?.getD p.mobile_number
    village := u.village?.getD p.village
    role := u.role?.getD p.role
    profile_picture_url := u.profile_picture_url?.getD p.profile_picture_url
    rating := u.rating?.getD p.rating
    total_ratings := u.total_ratings?.getD p.total_ratings
    created_at := u.created_at?.getD p.created_at
    updated_at := u.updated_at?.getD p.updated_at }

/-- Source `updateProfile(updates)` from `useAuth`.  `now` is
`new Date().toISOString()`; `remote` the outcome of the scoped row update
(`ok` carries the authoritative row the store returns).  Applies the
optimistic merge first, then on remote failure reverts to the captured
pre-update profile, records the error and re-raises; on success adopts the
returned row and returns it. -/
def updateProfile (c : HookCtx) (updates : ProfileUpdates) (now : String)
    (remote : Except StoreError Profile) :
    HookCtx × Except String Profile :=
  match c.state.user with
  | none =>
      (updateState c { error? := some (some "No user logged in") },
        .error "No user logged in")
  | some _ =>
      match c.state.profile with
      | none =>
          (updateState c { error? := some (some "No profile found to update") },
            .error "No profile found to update")
      | some p =>
          let optimistic := { mergeProfile p updates with updated_at := now }
          let c1 := updateState c { profile? := some (some optimistic) }
          let c2 := updateState c1 { error? := some none }
          match remote with
          | .ok data =>
              (updateState c2 { profile? := some (some data) }, .ok data)
          | .error e =>
              let msg := "Profile update failed: " ++ e.message
              let c3 := updateState c2 { profile? := some (some p) }
              let c4 := updateState c3 { profile? := some (some p) }
              (updateState c4 { error? := some (some msg) }, .error msg)

/-- Source `signOut` from `useAuth`: clears `error`, requests remote sign-out;
on a remote error records `Sign out failed: <message>` and re-raises;
on success leaves the state transition to the auth event listener. -/
def signOut (c : HookCtx) (remote : Option StoreError) :
    HookCtx × Except String Unit :=
  let c1 := updateState c { error? := some none }
  match remote with
  | none => (c1, .ok ())
  | some e =>
      let msg := "Sign out failed: " ++ e.message
      (updateState c1 { error? := some (some msg) }, .error msg)

/-- Source `retry` from `useAuth`: re-runs `getInitialSession` when not yet
initialized; runs `refreshProfile` when a user is present without a
profile; otherwise does nothing. -/
def retry (c : HookCtx)
    (sessionRes : Except StoreError (Option Session))
    (remote : Nat → Except StoreError Profile) :
    HookCtx × Except AuthHookError Unit :=
  if c.state.initialized = false then
    (getInitialSession c sessionRes remote, .ok ())
  else if c.state.user.isSome ∧ c.state.profile = none then
    refreshProfile c remote
  else
    (c, .ok ())

/-- One invocation of a hook operation or externally triggered event,
carrying the remote responses it will observe. -/
inductive Op where
  | init (sessionRes : Except StoreError (Option Session))
      (remote : Nat → Except StoreError Profile)
  | authEvent (event : AuthChangeEvent) (session : Option Session)
      (remote : Nat → Except StoreError Profile)
  | refresh (remote : Nat → Except StoreError Profile)
  | update (updates : ProfileUpdates) (now : String)
      (remote : Except StoreError Profile)
  | doSignOut (remote : Option StoreError)
  | doRetry (sessionRes : Except StoreError (Option Session))
      (remote : Nat → Except StoreError Profile)
  | doClearError
  | teardown

/-- Run one operation against the hook context (teardown is the effect
cleanup setting `isMountedRef.current = false`). -/
def runOp (c : HookCtx) : Op → HookCtx
  | .init sessionRes remote => getInitialSession c sessionRes remote
  | .authEvent event session remote => handleAuthStateChange c event session remote
  | .refresh remote => (refreshProfile c remote).1
  | .update updates now remote => (updateProfile c updates now remote).1
  | .doSignOut remote => (signOut c remote).1
  | .doRetry sessionRes remote => (retry c sessionRes remote).1
  | .doClearError => clearError c
  | .teardown => { c with mounted := false }

/-- Run a sequence of operations. -/
def run (c : HookCtx) : List Op → HookCtx
  | [] => c
  | op :: rest => run (runOp c op) rest

/-- Holds unless `op` is a `USER_UPDATED` auth event delivered with a null session
(the one payload shape under which the profile-implies-user invariant can
break, see `profile_implies_user_cex`). -/
def userUpdatedHasSession : Op → Bool
  | .authEvent .userUpdated none _ => false
  | _ => true

/-- The profile-implies-user invariant on the observable state. -/
def StateInv (s : AuthState) : Prop :=
  s.profile ≠ none → s.user ≠ none

instance (s : AuthState) : Decidable (StateInv s) := by
  unfold StateInv; infer_instance

/-! ### Sample data used by witnesses and counterexamples -/

/-- A sample profile row. -/
def sampleProfile : Profile :=
  ⟨"u1", "Asha", "9000000000", "Oldtown", .worker, none, 0, 0, "t0", "t0"⟩

/-- The row the remote store returns for a successful update (differs from
any optimistic merge: server-computed `updated_at`). -/
def sampleServerRow : Profile :=
  ⟨"u1", "Asha", "9000000000", "Rampur", .worker, none, 0, 0, "t0", "server-t2"⟩

/-- A sample authenticated user. -/
def sampleUser : User := ⟨"u1"⟩

/-- A sample session for `sampleUser`. -/
def sampleSession : Session := ⟨sampleUser⟩

/-- A transient (network-class) store error. -/
def netErr : StoreError := ⟨"network down", none⟩

/-- A non-transient store error. -/
def hardErr : StoreError := ⟨"permission denied", some "42501"⟩

/-- The store's not-found signal. -/
def notFoundErr : StoreError := ⟨"0 rows returned", some "PGRST116"⟩

/-- A remote that answers every profile select with `sampleProfile`. -/
def remoteOk : Nat → Except StoreError Profile := fun _ => .ok sampleProfile

/-- A hook context in the `Active` state. -/
def activeCtx : HookCtx :=
  ⟨true, ⟨some sampleUser, some sampleProfile, false, none, true⟩⟩

/-! ### Helper lemmas -/

theorem updateState_mounted (c : HookCtx) (u : AuthStateUpdates) :
    (updateState c u).mounted = c.mounted := by
  unfold updateState; split <;> rfl

theorem updateState_of_mounted {c : HookCtx} (h : c.mounted = true)
    (u : AuthStateUpdates) :
    updateState c u = ⟨true, applyUpdates c.state u⟩ := by
  unfold updateState
  rw [h]
  simp [h]

theorem updateState_of_unmounted {c : HookCtx} (h : c.mounted = false)
    (u : AuthStateUpdates) : updateState c u = c := by
  unfold updateState
  rw [h]
  simp

theorem updateState_mk_true (s : AuthState) (u : AuthStateUpdates) :
    updateState ⟨true, s⟩ u = ⟨true, applyUpdates s u⟩ := rfl

theorem fetchProfileGo_attempts_le (remote : Nat → Except StoreError Profile) :
    ∀ fuel retryCount,
      (fetchProfileGo remote fuel retryCount).attempts ≤ fuel + 1 := by
  intro fuel
  induction fuel with
  | zero =>
      intro rc
      rw [fetchProfileGo]
      cases remote rc with
      | ok data => exact le_refl 1
      | error e =>
          simp only
          split <;> simp
  | succ n ih =>
      intro rc
      rw [fetchProfileGo]
      cases remote rc with
      | ok data => simp
      | error e =>
          simp only
          split
          · simp
          · split
            · have := ih (rc + 1)
              simp only [FetchTrace.mk.injEq]
              omega
            · simp

/-- C1: Fetch Profile against a remote failing with a transient error on
every attempt makes exactly 4 attempts (1 initial + 3 retries) with
back-off delays of 1000, 2000 and 4000 ms before the retries, and surfaces
the failure thrown from the final attempt; against a non-transient failure
it makes exactly 1 attempt, no delays, and surfaces the failure at once;
and in general no call starting at any `retryCount` ever makes more than 4
attempts. -/
theorem fetchProfile_retry_bound :
    (∀ (remote : Nat → Except StoreError Profile) (e : Nat → StoreError),
      (∀ n, remote n = .error (e n)) →
      (∀ n, isTransient (e n) = true) →
      (∀ n, isNotFound (e n) = false) →
      fetchProfile remote 0 =
        ⟨.error ⟨"Failed to fetch profile: " ++ (e 3).message, (e 3).code⟩,
          4, [1000, 2000, 4000]⟩) ∧
    (∀ (remote : Nat → Except StoreError Profile) (e : StoreError),
      remote 0 = .error e →
      isTransient e = false →
      isNotFound e = false →
      fetchProfile remote 0 =
        ⟨.error ⟨"Failed to fetch profile: " ++ e.message, e.code⟩, 1, []⟩) ∧
    (∀ (remote : Nat → Except StoreError Profile) (retryCount : Nat),
      (fetchProfile remote retryCount).attempts ≤ 4) := by
  refine ⟨?_, ?_, ?_⟩
  · intro remote e hrem htr hnf
    have step : ∀ (fuelLeft rc : Nat),
        fetchProfileGo remote (fuelLeft + 1) rc =
          ⟨(fetchProfileGo remote fuelLeft (rc + 1)).result,
            (fetchProfileGo remote fuelLeft (rc + 1)).attempts + 1,
            retryDelay rc :: (fetchProfileGo remote fuelLeft (rc + 1)).delays⟩ := by
      intro fuelLeft rc
      rw [fetchProfileGo, hrem rc]
      simp [hnf rc, htr rc]
    have base : fetchProfileGo remote 0 3 =
        ⟨.error ⟨"Failed to fetch profile: " ++ (e 3).message, (e 3).code⟩,
          1, []⟩ := by
      rw [fetchProfileGo, hrem 3]
      simp [hnf 3]
    have h30 : fetchProfile remote 0 = fetchProfileGo remote 3 0 := rfl
    rw [h30, step 2 0, step 1 1, step 0 2, base]
    simp [retryDelay]
  · intro remote e hrem htr hnf
    have h30 : fetchProfile remote 0 = fetchProfileGo remote 3 0 := rfl
    rw [h30, fetchProfileGo, hrem]
    simp [hnf, htr]
  · intro remote retryCount
    have h := fetchProfileGo_attempts_le remote (maxRetries - retryCount)
      retryCount
    unfold fetchProfile
    have hf : maxRetries - retryCount ≤ 3 := by unfold maxRetries; omega
    omega

/-- Witness for C1 at concrete remotes: a permanently network-failing
remote yields 4 attempts with delays 1s, 2s, 4s and a surfaced failure; a
permission-denied remote yields exactly 1 attempt and an immediate
failure. -/
theorem fetchProfile_retry_bound_witness :
    fetchProfile (fun _ => .error netErr) 0 =
      ⟨.error ⟨"Failed to fetch profile: network down", none⟩,
        4, [1000, 2000, 4000]⟩ ∧
    fetchProfile (fun _ => .error hardErr) 0 =
      ⟨.error ⟨"Failed to fetch profile: permission denied", some "42501"⟩,
        1, []⟩ :=
  ⟨fetchProfile_retry_bound.1 (fun _ => .error netErr) (fun _ => netErr)
      (fun _ => rfl) (fun _ => rfl) (fun _ => rfl),
    fetchProfile_retry_bound.2.1 (fun _ => .error hardErr) hardErr
      rfl rfl rfl⟩

/-- C5: Fetch Profile answered with the store's not-found signal
(`PGRST116`) returns "no profile" (`none`) without raising, makes exactly
1 attempt with no retries and no delays; and Initialize running such a
fetch for a live session ends with no `error` recorded (the fetch itself
is pure and never touches `ManagerState`). -/
theorem fetchProfile_notFound
    (remote : Nat → Except StoreError Profile) (e : StoreError)
    (hrem : remote 0 = .error e) (hnf : isNotFound e = true) :
    fetchProfile remote 0 = ⟨.ok none, 1, []⟩ ∧
    (∀ (c : HookCtx) (sess : Session), c.mounted = true →
      (getInitialSession c (.ok (some sess)) remote).state.error = none) := by
  have hfetch : fetchProfile remote 0 = ⟨.ok none, 1, []⟩ := by
    have h30 : fetchProfile remote 0 = fetchProfileGo remote 3 0 := rfl
    rw [h30, fetchProfileGo, hrem]
    simp [hnf]
  refine ⟨hfetch, ?_⟩
  intro c sess hm
  unfold getInitialSession
  rw [hfetch]
  simp [updateState_of_mounted hm, updateState_mk_true, applyUpdates]

/-- Witness for C5: the concrete `PGRST116` response observed from an
`Active`-shaped context. -/
theorem fetchProfile_notFound_witness :
    fetchProfile (fun _ => .error notFoundErr) 0 = ⟨.ok none, 1, []⟩ ∧
    (getInitialSession activeCtx (.ok (some sampleSession))
      (fun _ => .error notFoundErr)).state.error = none :=
  ⟨(fetchProfile_notFound (fun _ => .error notFoundErr) notFoundErr
      rfl rfl).1,
    (fetchProfile_notFound (fun _ => .error notFoundErr) notFoundErr
      rfl rfl).2 activeCtx sampleSession rfl⟩

/-- C4: after Initialize settles — whatever the session lookup and profile
fetch return — and after the handler for any auth event with any payload
settles, the observable state has `initialized = true` and
`loading = false` (in the live, still-mounted hook). -/
theorem settle_flags (c : HookCtx) (h : c.mounted = true)
    (sessionRes : Except StoreError (Option Session))
    (remote : Nat → Except StoreError Profile)
    (event : AuthChangeEvent) (session : Option Session)
    (remote2 : Nat → Except StoreError Profile) :
    ((getInitialSession c sessionRes remote).state.initialized = true ∧
      (getInitialSession c sessionRes remote).state.loading = false) ∧
    ((handleAuthStateChange c event session remote2).state.initialized = true ∧
      (handleAuthStateChange c event session remote2).state.loading = false) := by
  constructor
  · unfold getInitialSession
    rcases sessionRes with e | s
    · simp [updateState_of_mounted h, updateState_mk_true, applyUpdates]
    · rcases s with _ | sess
      · simp [updateState_of_mounted h, updateState_mk_true, applyUpdates]
      · rcases hfp : (fetchProfile remote 0).result with pe | p <;>
          simp [hfp, updateState_of_mounted h, updateState_mk_true,
            applyUpdates]
  · unfold handleAuthStateChange
    rcases event with _ | _ | _ | _ | kind
    case signedIn | tokenRefreshed =>
      rcases session with _ | sess <;>
        simp [updateState_of_mounted h, updateState_mk_true, applyUpdates]
    case signedOut | userUpdated =>
      simp [updateState_of_mounted h, updateState_mk_true, applyUpdates]
    case other =>
      rcases session with _ | sess
      · simp [updateState_of_mounted h, updateState_mk_true, applyUpdates]
      · rcases hfp : (fetchProfile remote2 0).result with pe | p <;>
          simp [hfp, updateState_of_mounted h, updateState_mk_true,
            applyUpdates]

/-- Witness for C4: a still-`Unresolved` mounted context, a failing session
lookup and an arbitrary event. -/
theorem settle_flags_witness :
    ((getInitialSession initCtx (.error netErr) remoteOk).state.initialized
        = true ∧
      (getInitialSession initCtx (.error netErr) remoteOk).state.loading
        = false) ∧
    ((handleAuthStateChange initCtx (.other "PASSWORD_RECOVERY") none
        remoteOk).state.initialized = true ∧
      (handleAuthStateChange initCtx (.other "PASSWORD_RECOVERY") none
        remoteOk).state.loading = false) :=
  settle_flags initCtx rfl (.error netErr) remoteOk
    (.other "PASSWORD_RECOVERY") none remoteOk

/-- C9 (amended): handling a `SIGNED_OUT` event sets `profile = null`
unconditionally, but adopts `user` from the event's session payload
(`session?.user ?? null`), so `user` is null exactly when the payload is
null — not unconditionally. -/
theorem signedOut_event (c : HookCtx) (h : c.mounted = true)
    (session : Option Session) (remote : Nat → Except StoreError Profile) :
    (handleAuthStateChange c .signedOut session remote).state.profile
        = none ∧
    (handleAuthStateChange c .signedOut session remote).state.user
        = session.map Session.user := by
  unfold handleAuthStateChange
  simp [updateState_of_mounted h, updateState_mk_true, applyUpdates]

/-- Witness for C9's amended claim: a `SIGNED_OUT` event with a null
payload delivered to an `Active` context nulls both fields. -/
theorem signedOut_event_witness :
    (handleAuthStateChange activeCtx .signedOut none remoteOk).state.profile
        = none ∧
    (handleAuthStateChange activeCtx .signedOut none remoteOk).state.user
        = none :=
  signedOut_event activeCtx rfl none remoteOk

/-- Counterexample to C9 as stated: a `SIGNED_OUT` event carrying a
non-null session payload does NOT result in `user = null` — the handler
adopts the payload's user. -/
theorem signedOut_event_cex :
    (handleAuthStateChange activeCtx .signedOut (some sampleSession)
      remoteOk).state.user = some sampleUser ∧ some sampleUser ≠ none := by
  constructor
  · rfl
  · simp

theorem signOut_frame_aux (c : HookCtx) (remote : Option StoreError) :
    (signOut c remote).1.state.user = c.state.user ∧
    (signOut c remote).1.state.profile = c.state.profile ∧
    (signOut c remote).1.state.loading = c.state.loading ∧
    (signOut c remote).1.state.initialized = c.state.initialized ∧
    (∀ e, remote = some e →
      (signOut c remote).2 = .error ("Sign out failed: " ++ e.message)) := by
  unfold signOut
  rcases hm : c.mounted with _ | _
  · rcases remote with _ | e <;>
      simp [updateState_of_unmounted hm]
  · rcases remote with _ | e <;>
      simp [updateState_of_mounted hm, updateState_mk_true, applyUpdates]

/-- C7: Sign Out never directly writes `user`, `profile`, `loading` or
`initialized` (the `Anonymous` transition is left to the auth event
listener); and on a remote error it re-raises `Sign out failed: <message>`
to the caller while leaving those fields untouched. -/
theorem signOut_frame (c : HookCtx) (remote : Option StoreError) :
    (signOut c remote).1.state.user = c.state.user ∧
    (signOut c remote).1.state.profile = c.state.profile ∧
    (signOut c remote).1.state.loading = c.state.loading ∧
    (signOut c remote).1.state.initialized = c.state.initialized ∧
    (∀ e, remote = some e →
      (signOut c remote).2 = .error ("Sign out failed: " ++ e.message)) :=
  signOut_frame_aux c remote

/-- Witness for C7: a failing remote sign-out from the `Active` context
leaves user and profile in place and re-raises. -/
theorem signOut_frame_witness :
    (signOut activeCtx (some netErr)).1.state.user = some sampleUser ∧
    (signOut activeCtx (some netErr)).1.state.profile = some sampleProfile ∧
    (signOut activeCtx (some netErr)).2 =
      .error "Sign out failed: network down" := by
  have h := signOut_frame activeCtx (some netErr)
  exact ⟨h.1, h.2.1, h.2.2.2.2 netErr rfl⟩

/-- C2: when Update Profile's remote call fails, the optimistic merge is
fully rolled back — after settlement `profile` is exactly the pre-update
profile `p`, not `p` merged with the attempted fields — `error` is set to
`Profile update failed: <message>`, and the same failure is re-raised to
the caller. -/
theorem updateProfile_rollback (c : HookCtx)
    (updates : ProfileUpdates) (now : String) (e : StoreError)
    (hm : c.mounted = true) (u : User) (p : Profile)
    (hu : c.state.user = some u) (hp : c.state.profile = some p) :
    (updateProfile c updates now (.error e)).1.state.profile = some p ∧
    (updateProfile c updates now (.error e)).1.state.error
        = some ("Profile update failed: " ++ e.message) ∧
    (updateProfile c updates now (.error e)).2
        = .error ("Profile update failed: " ++ e.message) := by
  unfold updateProfile
  rw [hu, hp]
  simp [updateState_of_mounted hm, updateState_mk_true, applyUpdates]

/-- Witness for C2 (Scenario D shaped): updating `village` to `Rampur`
over `Oldtown` against a network-failing remote ends with the original
profile (village still `Oldtown`) and the update-failed error. -/
theorem updateProfile_rollback_witness :
    (updateProfile activeCtx { village? := some "Rampur" } "t1"
        (.error netErr)).1.state.profile = some sampleProfile ∧
    (updateProfile activeCtx { village? := some "Rampur" } "t1"
        (.error netErr)).1.state.error
      = some "Profile update failed: network down" ∧
    (updateProfile activeCtx { village? := some "Rampur" } "t1"
        (.error netErr)).2 = .error "Profile update failed: network down" :=
  updateProfile_rollback activeCtx { village? := some "Rampur" } "t1" netErr
    rfl sampleUser sampleProfile rfl rfl

/-- C6: when Update Profile's remote call succeeds returning row `data`,
after settlement `profile` is exactly that authoritative row (not the
locally merged optimistic value) and `data` is returned to the caller. -/
theorem updateProfile_commit (c : HookCtx)
    (updates : ProfileUpdates) (now : String) (data : Profile)
    (hm : c.mounted = true) (u : User) (p : Profile)
    (hu : c.state.user = some u) (hp : c.state.profile = some p) :
    (updateProfile c updates now (.ok data)).1.state.profile = some data ∧
    (updateProfile c updates now (.ok data)).2 = .ok data := by
  unfold updateProfile
  rw [hu, hp]
  simp [updateState_of_mounted hm, updateState_mk_true, applyUpdates]

/-- Witness for C6: the store's returned row (server-computed
`updated_at := "server-t2"`) wins over the optimistic merge (which would
have `updated_at := "t1"`). -/
theorem updateProfile_commit_witness :
    (updateProfile activeCtx { village? := some "Rampur" } "t1"
        (.ok sampleServerRow)).1.state.profile = some sampleServerRow ∧
    (updateProfile activeCtx { village? := some "Rampur" } "t1"
        (.ok sampleServerRow)).2 = .ok sampleServerRow :=
  updateProfile_commit activeCtx { village? := some "Rampur" } "t1"
    sampleServerRow rfl sampleUser sampleProfile rfl rfl

/-- C10: `retry` is a conditional dispatch — not yet initialized re-runs
Initialize; initialized with a user but no profile runs Refresh Profile;
in every other state it performs no remote call and returns the context
with every field unchanged. -/
theorem retry_dispatch (c1 c2 c3 : HookCtx)
    (sessionRes : Except StoreError (Option Session))
    (remote : Nat → Except StoreError Profile)
    (h1 : c1.state.initialized = false)
    (h2i : c2.state.initialized = true) (h2u : c2.state.user.isSome)
    (h2p : c2.state.profile = none)
    (h3i : c3.state.initialized = true)
    (h3 : c3.state.user = none ∨ c3.state.profile ≠ none) :
    retry c1 sessionRes remote = (getInitialSession c1 sessionRes remote,
      .ok ()) ∧
    retry c2 sessionRes remote = refreshProfile c2 remote ∧
    retry c3 sessionRes remote = (c3, .ok ()) := by
  refine ⟨?_, ?_, ?_⟩
  · unfold retry
    simp [h1]
  · unfold retry
    simp [h2i, h2u, h2p]
  · unfold retry
    rcases h3 with h3u | h3p
    · simp [h3i, h3u]
    · simp [h3i, h3p]

/-- Witness for C10 at the three concrete states: the initial
(`Unresolved`) context, an `Onboarding` context, and the `Active` context
(where retry is a no-op). -/
theorem retry_dispatch_witness :
    retry initCtx (.ok none) remoteOk =
      (getInitialSession initCtx (.ok none) remoteOk, .ok ()) ∧
    retry ⟨true, ⟨some sampleUser, none, false, none, true⟩⟩ (.ok none)
        remoteOk =
      refreshProfile ⟨true, ⟨some sampleUser, none, false, none, true⟩⟩
        remoteOk ∧
    retry activeCtx (.ok none) remoteOk = (activeCtx, .ok ()) := by
  have h := retry_dispatch initCtx
    ⟨true, ⟨some sampleUser, none, false, none, true⟩⟩ activeCtx
    (.ok none) remoteOk rfl rfl rfl rfl rfl (Or.inr (by simp [activeCtx]))
  exact h

theorem getInitialSession_unmounted {c : HookCtx} (h : c.mounted = false)
    (sessionRes : Except StoreError (Option Session))
    (remote : Nat → Except StoreError Profile) :
    getInitialSession c sessionRes remote = c := by
  unfold getInitialSession
  rcases sessionRes with e | s
  · simp [updateState_of_unmounted h]
  · rcases s with _ | sess
    · simp [updateState_of_unmounted h]
    · rcases hfp : (fetchProfile remote 0).result with pe | p <;>
        simp [hfp, updateState_of_unmounted h]

theorem handleAuthStateChange_unmounted {c : HookCtx} (h : c.mounted = false)
    (event : AuthChangeEvent) (session : Option Session)
    (remote : Nat → Except StoreError Profile) :
    handleAuthStateChange c event session remote = c := by
  unfold handleAuthStateChange
  rcases event with _ | _ | _ | _ | kind
  case signedIn | tokenRefreshed | signedOut | userUpdated =>
    simp [updateState_of_unmounted h]
  case other =>
    rcases session with _ | sess
    · simp [updateState_of_unmounted h]
    · rcases hfp : (fetchProfile remote 0).result with pe | p <;>
        simp [hfp, updateState_of_unmounted h]

theorem refreshProfile_unmounted {c : HookCtx} (h : c.mounted = false)
    (remote : Nat → Except StoreError Profile) :
    (refreshProfile c remote).1 = c := by
  unfold refreshProfile
  rcases hu : c.state.user with _ | u
  · rfl
  · rcases hfp : (fetchProfile remote 0).result with pe | p <;>
      simp [hfp, updateState_of_unmounted h]

theorem updateProfile_unmounted {c : HookCtx} (h : c.mounted = false)
    (updates : ProfileUpdates) (now : String)
    (remote : Except StoreError Profile) :
    (updateProfile c updates now remote).1 = c := by
  unfold updateProfile
  rcases hu : c.state.user with _ | u
  · simp [updateState_of_unmounted h]
  · rcases hp : c.state.profile with _ | p
    · simp [updateState_of_unmounted h]
    · rcases remote with e | data <;>
        simp [updateState_of_unmounted h]

theorem signOut_unmounted {c : HookCtx} (h : c.mounted = false)
    (remote : Option StoreError) : (signOut c remote).1 = c := by
  unfold signOut
  rcases remote with _ | e <;> simp [updateState_of_unmounted h]

theorem retry_unmounted {c : HookCtx} (h : c.mounted = false)
    (sessionRes : Except StoreError (Option Session))
    (remote : Nat → Except StoreError Profile) :
    (retry c sessionRes remote).1 = c := by
  unfold retry
  split
  · simp [getInitialSession_unmounted h]
  · split
    · exact refreshProfile_unmounted h remote
    · rfl

theorem runOp_unmounted {c : HookCtx} (h : c.mounted = false) (op : Op) :
    runOp c op = c := by
  rcases op with ⟨sr, r⟩ | ⟨ev, s, r⟩ | r | ⟨up, now, r⟩ | r | ⟨sr, r⟩ | _ | _
  · exact getInitialSession_unmounted h sr r
  · exact handleAuthStateChange_unmounted h ev s r
  · exact refreshProfile_unmounted h r
  · exact updateProfile_unmounted h up now r
  · exact signOut_unmounted h r
  · exact retry_unmounted h sr r
  · exact updateState_of_unmounted h _
  · show { c with mounted := false } = c
    rcases c with ⟨m, s⟩
    simp only [HookCtx.mk.injEq, and_true]
    exact h.symm

theorem run_unmounted {c : HookCtx} (h : c.mounted = false) :
    ∀ ops : List Op, run c ops = c := by
  intro ops
  induction ops with
  | nil => rfl
  | cons op rest ih =>
      show run (runOp c op) rest = c
      rw [runOp_unmounted h op]
      exact ih

/-- C8: every state write goes through the liveness-guarded `updateState`,
so once the hook context is torn down (unmounted) no single write and no
sequence of settling operations — Initialize, auth events, Refresh,
Update, Sign Out, retry — can mutate the externally observable state. -/
theorem teardown_silences (c : HookCtx) (u : AuthStateUpdates) (ops : List Op)
    (h : c.mounted = false) :
    updateState c u = c ∧ run c ops = c :=
  ⟨updateState_of_unmounted h u, run_unmounted h ops⟩

/-- Witness for C8: after teardown of an `Active`-shaped context, a direct
write and a sequence of settling operations all leave the state intact. -/
theorem teardown_silences_witness :
    updateState ⟨false, activeCtx.state⟩ { profile? := some none }
        = ⟨false, activeCtx.state⟩ ∧
    run ⟨false, activeCtx.state⟩
        [.refresh remoteOk, .authEvent .signedOut none remoteOk,
          .update { village? := some "Rampur" } "t1" (.ok sampleServerRow),
          .doSignOut none]
        = ⟨false, activeCtx.state⟩ :=
  teardown_silences ⟨false, activeCtx.state⟩ { profile? := some none }
    [.refresh remoteOk, .authEvent .signedOut none remoteOk,
      .update { village? := some "Rampur" } "t1" (.ok sampleServerRow),
      .doSignOut none] rfl

theorem StateInv_getInitialSession {c : HookCtx} (hc : StateInv c.state)
    (sessionRes : Except StoreError (Option Session))
    (remote : Nat → Except StoreError Profile) :
    StateInv (getInitialSession c sessionRes remote).state := by
  rcases hm : c.mounted with _ | _
  · rw [getInitialSession_unmounted hm]; exact hc
  · unfold getInitialSession StateInv
    rcases sessionRes with e | s
    · simp [updateState_of_mounted hm, updateState_mk_true, applyUpdates]
    · rcases s with _ | sess
      · simp [updateState_of_mounted hm, updateState_mk_true, applyUpdates]
      · rcases hfp : (fetchProfile remote 0).result with pe | p <;>
          simp [hfp, updateState_of_mounted hm, updateState_mk_true,
            applyUpdates]

theorem StateInv_handleAuthStateChange {c : HookCtx} (hc : StateInv c.state)
    (event : AuthChangeEvent) (session : Option Session)
    (remote : Nat → Except StoreError Profile)
    (hs : event = .userUpdated → session ≠ none) :
    StateInv (handleAuthStateChange c event session remote).state := by
  rcases hm : c.mounted with _ | _
  · rw [handleAuthStateChange_unmounted hm]; exact hc
  · unfold handleAuthStateChange StateInv
    rcases event with _ | _ | _ | _ | kind
    case signedIn | tokenRefreshed =>
      rcases session with _ | sess
      · simp [updateState_of_mounted hm, updateState_mk_true, applyUpdates]
      · rcases hfp : (fetchProfile remote 0).result with pe | p <;>
          simp [hfp, updateState_of_mounted hm, updateState_mk_true,
            applyUpdates]
    case signedOut =>
      simp [updateState_of_mounted hm, updateState_mk_true, applyUpdates]
    case userUpdated =>
      rcases session with _ | sess
      · exact absurd rfl (hs rfl)
      · simp [updateState_of_mounted hm, updateState_mk_true, applyUpdates]
    case other =>
      rcases session with _ | sess
      · simp [updateState_of_mounted hm, updateState_mk_true, applyUpdates]
      · rcases hfp : (fetchProfile remote 0).result with pe | p
        · simp only [hfp, updateState_of_mounted hm, updateState_mk_true,
            applyUpdates, Option.getD_some, Option.getD_none]
          simpa using hc
        · simp [hfp, updateState_of_mounted hm, updateState_mk_true,
            applyUpdates]

theorem StateInv_refreshProfile {c : HookCtx} (hc : StateInv c.state)
    (remote : Nat → Except StoreError Profile) :
    StateInv (refreshProfile c remote).1.state := by
  rcases hm : c.mounted with _ | _
  · rw [refreshProfile_unmounted hm]; exact hc
  · unfold StateInv at hc ⊢
    unfold refreshProfile
    rcases hu : c.state.user with _ | u
    · exact hc
    · rcases hfp : (fetchProfile remote 0).result with pe | p <;>
        simp [hfp, updateState_of_mounted hm, updateState_mk_true,
          applyUpdates, hu]

theorem StateInv_updateProfile {c : HookCtx} (hc : StateInv c.state)
    (updates : ProfileUpdates) (now : String)
    (remote : Except StoreError Profile) :
    StateInv (updateProfile c updates now remote).1.state := by
  rcases hm : c.mounted with _ | _
  · rw [updateProfile_unmounted hm]; exact hc
  · unfold StateInv at hc ⊢
    unfold updateProfile
    rcases hu : c.state.user with _ | u
    · simp only [updateState_of_mounted hm, updateState_mk_true,
        applyUpdates, Option.getD_none]
      exact hc
    · rcases hp : c.state.profile with _ | p
      · simp only [updateState_of_mounted hm, updateState_mk_true,
          applyUpdates, Option.getD_none]
        exact hc
      · rcases remote with e | data <;>
          simp [updateState_of_mounted hm, updateState_mk_true,
            applyUpdates, hu]

theorem StateInv_signOut {c : HookCtx} (hc : StateInv c.state)
    (remote : Option StoreError) : StateInv (signOut c remote).1.state := by
  have h := signOut_frame_aux c remote
  unfold StateInv
  rw [h.1, h.2.1]
  exact hc

theorem StateInv_clearError {c : HookCtx} (hc : StateInv c.state) :
    StateInv (clearError c).state := by
  rcases hm : c.mounted with _ | _
  · unfold clearError
    rw [updateState_of_unmounted hm]
    exact hc
  · unfold clearError StateInv
    simp only [updateState_of_mounted hm, applyUpdates, Option.getD_none]
    exact hc

theorem StateInv_retry {c : HookCtx} (hc : StateInv c.state)
    (sessionRes : Except StoreError (Option Session))
    (remote : Nat → Except StoreError Profile) :
    StateInv (retry c sessionRes remote).1.state := by
  unfold retry
  split
  · exact StateInv_getInitialSession hc sessionRes remote
  · split
    · exact StateInv_refreshProfile hc remote
    · exact hc

theorem StateInv_runOp {c : HookCtx} (hc : StateInv c.state) (op : Op)
    (hop : userUpdatedHasSession op = true) :
    StateInv (runOp c op).state := by
  rcases op with ⟨sr, r⟩ | ⟨ev, s, r⟩ | r | ⟨up, now, r⟩ | r | ⟨sr, r⟩ | _ | _
  · exact StateInv_getInitialSession hc sr r
  · refine StateInv_handleAuthStateChange hc ev s r ?_
    rintro rfl rfl
    simp [userUpdatedHasSession] at hop
  · exact StateInv_refreshProfile hc r
  · exact StateInv_updateProfile hc up now r
  · exact StateInv_signOut hc r
  · exact StateInv_retry hc sr r
  · exact StateInv_clearError hc
  · exact hc

theorem StateInv_run {c : HookCtx} (hc : StateInv c.state) :
    ∀ ops : List Op, (∀ op ∈ ops, userUpdatedHasSession op = true) →
      StateInv (run c ops).state := by
  intro ops
  induction ops generalizing c with
  | nil => intro _; exact hc
  | cons op rest ih =>
      intro h
      show StateInv (run (runOp c op) rest).state
      exact ih (StateInv_runOp hc op (h op (List.mem_cons_self op rest)))
        (fun o ho => h o (List.mem_cons_of_mem op ho))

/-- C3 (amended): in every state reachable from the initial context by any
sequence of operations and auth events in which no `USER_UPDATED` event is
delivered with a null session payload, `profile ≠ null` implies
`user ≠ null`.  (The unrestricted claim fails: see
`profile_implies_user_cex`.) -/
theorem profile_implies_user (ops : List Op)
    (h : ∀ op ∈ ops, userUpdatedHasSession op = true) :
    (run initCtx ops).state.profile ≠ none →
      (run initCtx ops).state.user ≠ none := by
  have hc : StateInv initCtx.state := by
    intro hcon
    exact absurd rfl hcon
  exact StateInv_run hc ops h

/-- Witness for C3's amended claim: a sign-in followed by a
`USER_UPDATED` event that does carry its session keeps the invariant. -/
theorem profile_implies_user_witness :
    (∀ op ∈ ([.init (.ok (some sampleSession)) remoteOk,
        .authEvent .userUpdated (some sampleSession) remoteOk] : List Op),
      userUpdatedHasSession op = true) ∧
    ((run initCtx [.init (.ok (some sampleSession)) remoteOk,
        .authEvent .userUpdated (some sampleSession) remoteOk]).state.profile
          ≠ none →
      (run initCtx [.init (.ok (some sampleSession)) remoteOk,
        .authEvent .userUpdated (some sampleSession) remoteOk]).state.user
          ≠ none) :=
  ⟨by decide, profile_implies_user
    [.init (.ok (some sampleSession)) remoteOk,
      .authEvent .userUpdated (some sampleSession) remoteOk] (by decide)⟩

/-- The two-step trace refuting C3 as stated: initialize into `Active`,
then deliver `USER_UPDATED` with a null session. -/
def cexOps : List Op :=
  [.init (.ok (some sampleSession)) remoteOk,
    .authEvent .userUpdated none remoteOk]

/-- Counterexample to C3 as stated: after `cexOps` the reachable state has
a non-null `profile` (the handler keeps the prior profile) with a null
`user` (adopted from the null payload) — `profile ≠ null` does not imply
`user ≠ null` over unrestricted event payloads. -/
theorem profile_implies_user_cex :
    ¬ ((run initCtx cexOps).state.profile ≠ none →
        (run initCtx cexOps).state.user ≠ none) := by
  decide

end SevaConnect
